import Mathlib

/-!
Verification of the authentication and authorization resolver of the
APIProject service.

The embedding follows the source files directly:
  app/api/deps.py        (get_current_user, get_current_api_user_or_token,
                          get_current_api_user_with_scope)
  app/crud/token.py      (verify_token)
  app/crud/user.py       (get_user, get_user_by_email)
  app/models/user.py     (UserRole, User)
  app/models/token.py    (Token)

External collaborators are parameters of an Env record:
  Env.verify_token    models app.core.security.verify_token, i.e. the
                      jose jwt.decode wrapper, returning the decoded
                      payload (only the "sub" claim is ever read) or
                      none on any JWTError;
  Env.verify_password models the bcrypt passlib verifier;
  Env.now             models datetime.utcnow(), as a Nat timestamp.

The database is a snapshot record of the users and tokens tables; the
SQLAlchemy queries used by the resolver become list operations on it.
Timestamp audit columns (created_at, updated_at) are omitted: the
resolver never reads them.  The Token.scopes column stores JSON text of
a string list in the source; it is embedded as the decoded string list
(create_token dumps it, get_current_api_user_with_scope loads it back).
-/

/-- UserRole from app/models/user.py. -/
inductive UserRole where
  | SUPER_ADMIN
  | TENANT_ADMIN
  | USER
  | API_USER
deriving DecidableEq, Repr

/-- User row from app/models/user.py.  The same class is also used by
deps.py to build the non-persisted mock principal, whose id is None;
hence id is optional here.  hashed_password is optional for the same
reason (the mock sets none). -/
structure User where
  id : Option Nat
  email : String
  hashed_password : Option String
  full_name : String
  role : UserRole
  tenant_id : Option Nat
  is_active : Bool
deriving DecidableEq, Repr

/-- Token row from app/models/token.py.  tenant_id is non-nullable,
user_id is nullable.  scopes is the decoded scope list (stored as JSON
text in the column). -/
structure Token where
  id : Nat
  name : String
  token_hash : String
  scopes : List String
  is_active : Bool
  expires_at : Option Nat
  tenant_id : Nat
  user_id : Option Nat
deriving DecidableEq, Repr

/-- Decoded JWT payload; the resolver only reads payload.get("sub"),
which is none when the claim is absent. -/
structure JWTPayload where
  sub : Option String
deriving DecidableEq, Repr

/-- Snapshot of the storage the resolver reads, in storage order. -/
structure DB where
  users : List User
  tokens : List Token
deriving Repr

/-- External collaborators of the resolver: the JWT decoder of
app/core/security.py, the bcrypt hash verifier, and the clock. -/
structure Env where
  verify_token : String → Option JWTPayload
  verify_password : String → String → Bool
  now : Nat

/-- fastapi HTTPException as raised by deps.py: a status code and a
detail message (the WWW-Authenticate header is constant and omitted). -/
structure HTTPException where
  status_code : Nat
  detail : String
deriving DecidableEq, Repr

/-- The uniform 401 raised by every authentication failure in deps.py. -/
def credentials_exception : HTTPException :=
  { status_code := 401, detail := "Could not validate credentials" }

/-- The 403 raised by get_current_api_user_with_scope when the matched
token lacks the required scope; names the scope in the message. -/
def scope_exception (required_scope : String) : HTTPException :=
  { status_code := 403
  , detail := "Token does not have required scope: " ++ required_scope }

/-- app/crud/user.py get_user: first row with the given primary key. -/
def get_user (db : DB) (user_id : Nat) : Option User :=
  db.users.find? (fun u => u.id == some user_id)

/-- app/crud/user.py get_user_by_email: first row with the given email. -/
def get_user_by_email (db : DB) (email : String) : Option User :=
  db.users.find? (fun u => u.email == email)

/-- Expiry test from app/crud/token.py line 105:
token.expires_at and token.expires_at < datetime.utcnow(). -/
def expired (now : Nat) (t : Token) : Bool :=
  match t.expires_at with
  | some e => decide (e < now)
  | none => false

/-- Python truthiness of the nullable integer column api_token.user_id
as tested by `if api_token.user_id:` in deps.py. -/
def truthy : Option Nat → Bool
  | none => false
  | some n => n != 0

namespace token_crud

/-- The scanning loop of app/crud/token.py verify_token (lines 102-107):
for each candidate in order, a record whose hash verifies is returned
unless it is expired, in which case scanning continues. -/
def scan_tokens (env : Env) (token_value : String) : List Token → Option Token
  | [] => none
  | t :: rest =>
    if env.verify_password token_value t.token_hash then
      if expired env.now t then scan_tokens env token_value rest
      else some t
    else scan_tokens env token_value rest

/-- app/crud/token.py verify_token: fetch all tokens flagged active,
then run the scanning loop over them in storage order. -/
def verify_token (env : Env) (db : DB) (token_value : String) : Option Token :=
  scan_tokens env token_value (db.tokens.filter (fun t => t.is_active))

end token_crud

/-- The mock principal built in deps.py lines 80-87 and 143-150 for a
matched token with no associated user. -/
def mock_user (api_token : Token) : User :=
  { id := none
  , email := "api-token@system"
  , hashed_password := none
  , full_name := "API Token User"
  , role := UserRole.API_USER
  , tenant_id := some api_token.tenant_id
  , is_active := true }

/-- The signed-token block duplicated verbatim at deps.py lines 55-66
and 112-123: decode the JWT, read the sub claim, look the user up by
email, and accept only the three API-tier roles.  Any failure yields
none, which makes the caller fall through to the opaque-token branch. -/
def user_token_path (env : Env) (db : DB) (token : String) : Option User :=
  match env.verify_token token with
  | none => none
  | some payload =>
    match payload.sub with
    | none => none
    | some email =>
      match get_user_by_email db email with
      | none => none
      | some user =>
        if user.role ∈ [UserRole.API_USER, UserRole.TENANT_ADMIN, UserRole.SUPER_ADMIN]
        then some user else none

/-- The opaque-token block of deps.py lines 69-92, ending in the final
raise of credentials_exception when nothing returned. -/
def api_token_branch (env : Env) (db : DB) (token : String) : Except HTTPException User :=
  match token_crud.verify_token env db token with
  | some api_token =>
    if truthy api_token.user_id then
      match get_user db (api_token.user_id.getD 0) with
      | some user => Except.ok user
      | none => Except.error credentials_exception
    else
      Except.ok (mock_user api_token)
  | none => Except.error credentials_exception

/-- deps.py get_current_api_user_or_token (lines 43-92): signed path
first, opaque path second, uniform 401 otherwise. -/
def get_current_api_user_or_token (env : Env) (db : DB) (token : String) :
    Except HTTPException User :=
  match user_token_path env db token with
  | some user => Except.ok user
  | none => api_token_branch env db token

/-- The opaque-token block of deps.py lines 126-157: identical to
api_token_branch except that the scope set of the matched token is
checked before the user lookup, raising the 403 scope_exception (which
the except HTTPException handler re-raises) when the scope is absent. -/
def scoped_api_token_branch (required_scope : String) (env : Env) (db : DB)
    (token : String) : Except HTTPException User :=
  match token_crud.verify_token env db token with
  | some api_token =>
    if api_token.scopes.contains required_scope then
      if truthy api_token.user_id then
        match get_user db (api_token.user_id.getD 0) with
        | some user => Except.ok user
        | none => Except.error credentials_exception
      else
        Except.ok (mock_user api_token)
    else
      Except.error (scope_exception required_scope)
  | none => Except.error credentials_exception

/-- deps.py get_current_api_user_with_scope (lines 94-159), with the
closure over required_scope flattened into a first argument. -/
def get_current_api_user_with_scope (required_scope : String) (env : Env) (db : DB)
    (token : String) : Except HTTPException User :=
  match user_token_path env db token with
  | some user => Except.ok user
  | none => scoped_api_token_branch required_scope env db token

/-- deps.py get_current_user (lines 11-33): signed path only, no role
and no active-flag check. -/
def get_current_user (env : Env) (db : DB) (token : String) :
    Except HTTPException User :=
  match env.verify_token token with
  | none => Except.error credentials_exception
  | some payload =>
    match payload.sub with
    | none => Except.error credentials_exception
    | some email =>
      match get_user_by_email db email with
      | none => Except.error credentials_exception
      | some user => Except.ok user

/-- Characterization of the matcher as a first-match search: used by
several theorems below. -/
theorem verify_token_eq_find (env : Env) (db : DB) (s : String) :
    token_crud.verify_token env db s =
      db.tokens.find?
        (fun t => t.is_active && (env.verify_password s t.token_hash && !(expired env.now t))) := by
  unfold token_crud.verify_token
  induction db.tokens with
  | nil => rfl
  | cons t rest ih =>
    by_cases ha : t.is_active
    · by_cases hv : env.verify_password s t.token_hash
      · by_cases he : expired env.now t
        · simp [List.filter, List.find?, ha, hv, he, token_crud.scan_tokens] at ih ⊢
          exact ih
        · simp [List.filter, List.find?, ha, hv, he, token_crud.scan_tokens]
      · simp [List.filter, List.find?, ha, hv, token_crud.scan_tokens] at ih ⊢
        exact ih
    · simp [List.filter, List.find?, ha] at ih ⊢
      exact ih

/-!
Concrete fixtures used by counterexamples and witnesses.  The toy hash
scheme stores, for a secret p, the string p ++ "#h"; the verifier
checks exactly that, so distinct secrets never cross-verify.  The JWT
decoder recognizes two fixed credential strings and rejects the rest.
-/

/-- Fixture environment: a toy bcrypt and a toy JWT decoder. -/
def envFix : Env :=
  { verify_token := fun t =>
      if t == "jwt-admin" then some { sub := some "admin@x" }
      else if t == "jwt-inactive" then some { sub := some "inactive@x" }
      else none
  , verify_password := fun p h => h == p ++ "#h"
  , now := 1000 }

/-- Fixture tenant-wide token: secret abc123, tenant 7, no user. -/
def tokA : Token :=
  { id := 2, name := "tenantkey", token_hash := "abc123#h"
  , scopes := ["health:read"], is_active := true, expires_at := none
  , tenant_id := 7, user_id := none }

/-- Fixture database holding only tokA. -/
def dbA : DB := { users := [], tokens := [tokA] }

/-- Fixture token bound to user 5 but recorded under tenant 1. -/
def tokMismatch : Token :=
  { id := 1, name := "svc", token_hash := "sec#h"
  , scopes := ["health:read"], is_active := true, expires_at := none
  , tenant_id := 1, user_id := some 5 }

/-- Fixture user 5, member of tenant 2. -/
def uTenant2 : User :=
  { id := some 5, email := "u5@x", hashed_password := none
  , full_name := "U5", role := UserRole.USER
  , tenant_id := some 2, is_active := true }

/-- Fixture database where the matched token and its user disagree on
the tenant. -/
def dbMismatch : DB := { users := [uTenant2], tokens := [tokMismatch] }

/-- C6: the opaque-token matcher returns the first token in storage
order that is flagged active, whose stored hash verifies against the
presented secret, and whose expiry is not in the past; a verifying but
expired record is skipped and scanning continues; with no qualifying
candidate it returns none.  All of this is the first-match search
stated here. -/
theorem C6_matcher_first_match (env : Env) (db : DB) (s : String) :
    token_crud.verify_token env db s =
      db.tokens.find?
        (fun t => t.is_active && (env.verify_password s t.token_hash && !(expired env.now t))) :=
  verify_token_eq_find env db s

/-- C1 counterexample: an active, non-expired stored token (tokMismatch,
tenant 1) whose secret resolves successfully, yet the returned principal
carries tenant 2 (the tenant of the associated user), not the tenant of
the token.  The resolved principal also has no scope field at all. -/
theorem C1_counterexample :
    tokMismatch.is_active = true
    ∧ expired envFix.now tokMismatch = false
    ∧ token_crud.verify_token envFix dbMismatch "sec" = some tokMismatch
    ∧ get_current_api_user_or_token envFix dbMismatch "sec" = Except.ok uTenant2
    ∧ uTenant2.tenant_id ≠ some tokMismatch.tenant_id :=
  ⟨rfl, rfl, rfl, rfl, by decide⟩

/-- C1 amended: for an active, non-expired stored token T matched for a
secret s that is not a valid signed credential, resolution returns the
synthetic principal carrying the tenant of T when T has no associated
user, and returns the referenced user row itself (with that user rows
own tenant, which need not equal the tenant of T) when T references an
existing user; the resolved principal carries no scope set. -/
theorem C1_token_resolution (env : Env) (db : DB) (s : String) (T : Token)
    (henc : env.verify_token s = none)
    (hmatch : token_crud.verify_token env db s = some T) :
    (T.user_id = none →
      get_current_api_user_or_token env db s = Except.ok (mock_user T)
      ∧ (mock_user T).tenant_id = some T.tenant_id)
    ∧ (∀ uid u, T.user_id = some uid → uid ≠ 0 → get_user db uid = some u →
        get_current_api_user_or_token env db s = Except.ok u) := by
  constructor
  · intro hnull
    refine ⟨?_, rfl⟩
    simp [get_current_api_user_or_token, user_token_path, henc, api_token_branch,
      hmatch, hnull, truthy]
  · intro uid u huid hpos hu
    simp [get_current_api_user_or_token, user_token_path, henc, api_token_branch,
      hmatch, huid, truthy, hpos, hu]

/-- C1 witness: the amended theorem evaluated on the fixture token tokA
(tenant 7, secret abc123, no associated user). -/
theorem C1_witness :
    get_current_api_user_or_token envFix dbA "abc123" = Except.ok (mock_user tokA)
    ∧ (mock_user tokA).tenant_id = some tokA.tenant_id :=
  (C1_token_resolution envFix dbA "abc123" tokA rfl rfl).1 rfl

/-- C2: a matched stored token with null user_id resolves to the
synthetic principal: id absent, role API_USER, the tenant of the token,
the fixed placeholder email; and the result never depends on the users
table (no user record is dereferenced). -/
theorem C2_synthetic_principal (env : Env) (db : DB) (s : String) (T : Token)
    (henc : env.verify_token s = none)
    (hmatch : token_crud.verify_token env db s = some T)
    (hnull : T.user_id = none) :
    get_current_api_user_or_token env db s = Except.ok (mock_user T)
    ∧ (mock_user T).id = none
    ∧ (mock_user T).role = UserRole.API_USER
    ∧ (mock_user T).tenant_id = some T.tenant_id
    ∧ (mock_user T).email = "api-token@system"
    ∧ ∀ users2, get_current_api_user_or_token env { users := users2, tokens := db.tokens } s
        = Except.ok (mock_user T) := by
  have hbranch : ∀ users2,
      get_current_api_user_or_token env { users := users2, tokens := db.tokens } s
        = Except.ok (mock_user T) := by
    intro users2
    have hmatch2 : token_crud.verify_token env { users := users2, tokens := db.tokens } s
        = some T := hmatch
    simp [get_current_api_user_or_token, user_token_path, henc, api_token_branch,
      hmatch2, hnull, truthy]
  have hmain : get_current_api_user_or_token env db s = Except.ok (mock_user T) := by
    simp [get_current_api_user_or_token, user_token_path, henc, api_token_branch,
      hmatch, hnull, truthy]
  exact ⟨hmain, rfl, rfl, rfl, rfl, hbranch⟩

/-- C2 witness: the fixture token tokA (no user) resolves to the mock
principal, also when an unrelated users table is present. -/
theorem C2_witness :
    get_current_api_user_or_token envFix dbA "abc123" = Except.ok (mock_user tokA)
    ∧ (mock_user tokA).id = none
    ∧ (mock_user tokA).role = UserRole.API_USER
    ∧ (mock_user tokA).tenant_id = some tokA.tenant_id
    ∧ (mock_user tokA).email = "api-token@system"
    ∧ get_current_api_user_or_token envFix { users := [uTenant2], tokens := dbA.tokens } "abc123"
        = Except.ok (mock_user tokA) := by
  have h := C2_synthetic_principal envFix dbA "abc123" tokA rfl rfl rfl
  exact ⟨h.1, h.2.1, h.2.2.1, h.2.2.2.1, h.2.2.2.2.1, h.2.2.2.2.2 [uTenant2]⟩

/-- Fixture expired token: secret oldsec, expired at 10 (clock is 1000). -/
def tokExpired : Token :=
  { id := 3, name := "old", token_hash := "oldsec#h"
  , scopes := ["health:read"], is_active := true, expires_at := some 10
  , tenant_id := 1, user_id := none }

/-- Fixture database holding only the expired token. -/
def dbExpired : DB := { users := [], tokens := [tokExpired] }

/-- C3: an expired token is never returned as a match; and when every
token whose hash verifies against the presented secret is expired (in
particular when only the expired token T matches its own secret) and
the secret is not a valid signed credential, resolution fails with the
very same credentials_exception value raised in the no-matching-token
case, so the failure is indistinguishable from it. -/
theorem C3_expired_token_unauthenticated (env : Env) (db : DB) :
    (∀ s T, token_crud.verify_token env db s = some T → expired env.now T = false)
    ∧ ∀ s, env.verify_token s = none →
        (∀ t ∈ db.tokens, env.verify_password s t.token_hash = true → expired env.now t = true) →
        token_crud.verify_token env db s = none
        ∧ get_current_api_user_or_token env db s = Except.error credentials_exception := by
  constructor
  · intro s T hT
    rw [verify_token_eq_find] at hT
    have hp := List.find?_some hT
    simp only [Bool.and_eq_true, Bool.not_eq_true'] at hp
    exact hp.2.2
  · intro s henc hall
    have hnone : token_crud.verify_token env db s = none := by
      rw [verify_token_eq_find]
      rw [List.find?_eq_none]
      intro t ht
      by_cases hv : env.verify_password s t.token_hash
      · have he := hall t ht hv
        simp [hv, he]
      · simp [hv]
    refine ⟨hnone, ?_⟩
    simp [get_current_api_user_or_token, user_token_path, henc, api_token_branch, hnone]

/-- C3 witness: the expired fixture token never matches; presenting its
secret yields the uniform 401. -/
theorem C3_witness :
    token_crud.verify_token envFix dbExpired "oldsec" = none
    ∧ get_current_api_user_or_token envFix dbExpired "oldsec"
        = Except.error credentials_exception :=
  (C3_expired_token_unauthenticated envFix dbExpired).2 "oldsec" rfl (by decide)

/-- Fixture inactive user with an API-tier role, subject of the
credential jwt-inactive under envFix. -/
def uInactive : User :=
  { id := some 3, email := "inactive@x", hashed_password := some "pw#h"
  , full_name := "Inactive", role := UserRole.API_USER
  , tenant_id := some 1, is_active := false }

/-- Fixture database holding only the inactive user. -/
def dbInactive : DB := { users := [uInactive], tokens := [] }

/-- C4 counterexample: a valid signed token whose subject resolves to a
stored user whose active flag is false does NOT fail: both resolvers
return the inactive user as the principal, because the code never reads
the active flag during authentication. -/
theorem C4_counterexample :
    uInactive.is_active = false
    ∧ get_current_api_user_or_token envFix dbInactive "jwt-inactive" = Except.ok uInactive
    ∧ get_current_user envFix dbInactive "jwt-inactive" = Except.ok uInactive :=
  ⟨rfl, rfl, rfl⟩

/-- C4 amended: principal resolution never inspects the active flag of
the user: a valid signed token whose subject resolves to a stored user
with any role other than plain USER yields that user as the principal,
whether the user is active or not; an inactive user is not among the
failure causes absorbed into Unauthenticated. -/
theorem C4_active_flag_ignored (env : Env) (db : DB) (tok email : String) (u : User)
    (hdec : env.verify_token tok = some { sub := some email })
    (hu : get_user_by_email db email = some u)
    (hrole : u.role ≠ UserRole.USER) :
    get_current_api_user_or_token env db tok = Except.ok u := by
  have hmem : u.role ∈ [UserRole.API_USER, UserRole.TENANT_ADMIN, UserRole.SUPER_ADMIN] := by
    cases h : u.role <;> simp_all
  simp [get_current_api_user_or_token, user_token_path, hdec, hu, hmem]

/-- C4 witness: the amended theorem evaluated on the inactive fixture
user; resolution succeeds although the active flag is false. -/
theorem C4_witness :
    get_current_api_user_or_token envFix dbInactive "jwt-inactive" = Except.ok uInactive
    ∧ uInactive.is_active = false :=
  ⟨C4_active_flag_ignored envFix dbInactive "jwt-inactive" "inactive@x" uInactive rfl rfl
    (by decide), rfl⟩

/-- C5: the signed-token path is attempted first and a success there
short-circuits (first conjunct); the signed path yields no authorized
identity exactly when the credential fails to decode, carries no
subject, resolves to no stored user, or resolves to a user of plain
USER role (second conjunct); in that case and only then the result is
the opaque-token branch, and when the matcher also finds nothing the
result is the single uniform 401 (third conjunct). -/
theorem C5_precedence (env : Env) (db : DB) (tok : String) :
    (∀ email u, env.verify_token tok = some { sub := some email } →
        get_user_by_email db email = some u → u.role ≠ UserRole.USER →
        get_current_api_user_or_token env db tok = Except.ok u)
    ∧ (user_token_path env db tok = none ↔
        env.verify_token tok = none
        ∨ env.verify_token tok = some { sub := none }
        ∨ ∃ email, env.verify_token tok = some { sub := some email } ∧
            (get_user_by_email db email = none
             ∨ ∃ u, get_user_by_email db email = some u ∧ u.role = UserRole.USER))
    ∧ (user_token_path env db tok = none →
        get_current_api_user_or_token env db tok = api_token_branch env db tok
        ∧ (token_crud.verify_token env db tok = none →
            get_current_api_user_or_token env db tok = Except.error credentials_exception)) := by
  refine ⟨?_, ?_, ?_⟩
  · intro email u hdec hu hrole
    have hmem : u.role ∈ [UserRole.API_USER, UserRole.TENANT_ADMIN, UserRole.SUPER_ADMIN] := by
      cases h : u.role <;> simp_all
    simp [get_current_api_user_or_token, user_token_path, hdec, hu, hmem]
  · cases hdec : env.verify_token tok with
    | none => simp [user_token_path, hdec]
    | some payload =>
      obtain ⟨sub⟩ := payload
      cases sub with
      | none => simp [user_token_path, hdec]
      | some email =>
        cases hu : get_user_by_email db email with
        | none =>
          simp only [user_token_path, hdec, hu]
          constructor
          · intro _
            exact Or.inr (Or.inr ⟨email, rfl, Or.inl hu⟩)
          · intro _
            trivial
        | some u =>
          simp only [user_token_path, hdec, hu]
          constructor
          · intro hnone
            by_cases hmem : u.role ∈ [UserRole.API_USER, UserRole.TENANT_ADMIN, UserRole.SUPER_ADMIN]
            · simp [hmem] at hnone
            · have husr : u.role = UserRole.USER := by
                cases h : u.role <;> simp_all
              exact Or.inr (Or.inr ⟨email, rfl, Or.inr ⟨u, hu, husr⟩⟩)
          · intro hcauses
            rcases hcauses with h | h | ⟨email2, heq, hrest⟩
            · exact absurd h (by simp)
            · rw [Option.some.injEq, JWTPayload.mk.injEq] at h
              exact absurd h (by simp)
            · rw [Option.some.injEq, JWTPayload.mk.injEq, Option.some.injEq] at heq
              subst heq
              rcases hrest with h2 | ⟨u2, hu2, husr⟩
              · rw [hu] at h2
                exact absurd h2 (by simp)
              · rw [hu, Option.some.injEq] at hu2
                subst hu2
                simp [husr]
  · intro hnone
    constructor
    · simp [get_current_api_user_or_token, hnone]
    · intro hmatch
      simp [get_current_api_user_or_token, hnone, api_token_branch, hmatch]

/-- Fixture active admin-tier user, subject of the credential jwt-admin
under envFix. -/
def uAdmin : User :=
  { id := some 1, email := "admin@x", hashed_password := some "adm#h"
  , full_name := "Admin", role := UserRole.API_USER
  , tenant_id := some 1, is_active := true }

/-- Fixture database holding the admin-tier user and the tenant key
token, so that both the signed and the opaque path are populated. -/
def dbAdmin : DB := { users := [uAdmin], tokens := [tokA] }

/-- C5 witness: under envFix the signed credential jwt-admin resolves to
the admin-tier user without consulting the token table. -/
theorem C5_witness :
    get_current_api_user_or_token envFix dbAdmin "jwt-admin" = Except.ok uAdmin :=
  (C5_precedence envFix dbAdmin "jwt-admin").1 "admin@x" uAdmin rfl rfl (by decide)

/-- C7: for a principal resolved from an opaque token, the scope-gated
resolver returns the same principal when the required scope is present
in the matched token scope set, and fails with the 403 scope_exception
naming the scope when it is absent; this 403 value is distinct from the
401 credentials_exception used for missing or invalid credentials. -/
theorem C7_scope_gate (env : Env) (db : DB) (s : String) (T : Token) (u : User) (r : String)
    (henc : env.verify_token s = none)
    (hmatch : token_crud.verify_token env db s = some T)
    (hres : get_current_api_user_or_token env db s = Except.ok u) :
    (T.scopes.contains r = true →
      get_current_api_user_with_scope r env db s = Except.ok u)
    ∧ (T.scopes.contains r = false →
      get_current_api_user_with_scope r env db s = Except.error (scope_exception r)
      ∧ (scope_exception r).status_code = 403
      ∧ credentials_exception.status_code = 401
      ∧ scope_exception r ≠ credentials_exception
      ∧ (scope_exception r).detail = "Token does not have required scope: " ++ r) := by
  have hres2 : api_token_branch env db s = Except.ok u := by
    simpa [get_current_api_user_or_token, user_token_path, henc] using hres
  constructor
  · intro hin
    simp only [api_token_branch, hmatch] at hres2
    simp only [get_current_api_user_with_scope, user_token_path, henc,
      scoped_api_token_branch, hmatch, hin, if_true]
    exact hres2
  · intro hout
    have hout2 : r ∉ T.scopes := by simpa using hout
    refine ⟨?_, rfl, rfl, ?_, rfl⟩
    · simp [get_current_api_user_with_scope, user_token_path, henc,
        scoped_api_token_branch, hmatch, hout2]
    · intro hcontra
      have h43 : (403 : Nat) = 401 := congrArg HTTPException.status_code hcontra
      simp at h43

/-- C7 witness: the fixture tenant key grants health:read and is
refused status:read with the 403 naming that scope. -/
theorem C7_witness :
    get_current_api_user_with_scope "health:read" envFix dbA "abc123"
        = Except.ok (mock_user tokA)
    ∧ get_current_api_user_with_scope "status:read" envFix dbA "abc123"
        = Except.error (scope_exception "status:read") := by
  have h1 := C7_scope_gate envFix dbA "abc123" tokA (mock_user tokA) "health:read" rfl rfl rfl
  have h2 := C7_scope_gate envFix dbA "abc123" tokA (mock_user tokA) "status:read" rfl rfl rfl
  exact ⟨h1.1 rfl, (h2.2 rfl).1⟩

/-- C8: a principal from the signed-token path carries no scope set
(the embedded principal type has no scope field at all), and a
signed-token user of role API_USER, TENANT_ADMIN or SUPER_ADMIN passes
the scope-gated resolver for every required scope r, with no
scope-membership test applied. -/
theorem C8_signed_scope_unrestricted (env : Env) (db : DB) (tok email r : String) (u : User)
    (hdec : env.verify_token tok = some { sub := some email })
    (hu : get_user_by_email db email = some u)
    (hrole : u.role = UserRole.API_USER ∨ u.role = UserRole.TENANT_ADMIN
      ∨ u.role = UserRole.SUPER_ADMIN) :
    get_current_api_user_with_scope r env db tok = Except.ok u := by
  have hmem : u.role ∈ [UserRole.API_USER, UserRole.TENANT_ADMIN, UserRole.SUPER_ADMIN] := by
    rcases hrole with h | h | h <;> simp [h]
  simp [get_current_api_user_with_scope, user_token_path, hdec, hu, hmem]

/-- C8 witness: the signed admin-tier fixture user passes a scope gate
for a scope no stored token grants. -/
theorem C8_witness :
    get_current_api_user_with_scope "no:such:scope" envFix dbAdmin "jwt-admin"
        = Except.ok uAdmin :=
  C8_signed_scope_unrestricted envFix dbAdmin "jwt-admin" "admin@x" "no:such:scope" uAdmin
    rfl rfl (Or.inl rfl)

/-- C9: resolution is deterministic in the storage snapshot and the
clock: two resolutions of the same credential against the same state
that both succeed yield equal principals (the embedded resolver is a
pure function of the environment, the snapshot and the credential, and
the source performs no storage mutation during resolution). -/
theorem C9_resolution_deterministic (env : Env) (db : DB) (s : String) (u1 u2 : User)
    (h1 : get_current_api_user_or_token env db s = Except.ok u1)
    (h2 : get_current_api_user_or_token env db s = Except.ok u2) :
    u1 = u2 :=
  Except.ok.inj (h1.symm.trans h2)

/-- C9 witness: resolving the fixture secret twice yields the same
principal. -/
theorem C9_witness : mock_user tokA = mock_user tokA :=
  C9_resolution_deterministic envFix dbA "abc123" (mock_user tokA) (mock_user tokA) rfl rfl

/-- Fixture token whose user_id references no stored user. -/
def tokDangling : Token :=
  { id := 4, name := "dang", token_hash := "dangsec#h"
  , scopes := ["health:read"], is_active := true, expires_at := none
  , tenant_id := 2, user_id := some 9 }

/-- Fixture database holding only the dangling token and no users. -/
def dbDangling : DB := { users := [], tokens := [tokDangling] }

/-- C10: in the scope-gated resolver the scope test of the matched
token runs before the user lookup: a matched token lacking the required
scope yields the 403 scope_exception even when its user_id references
no existing user, while the same token with the required scope but a
missing user yields the 401 credentials_exception. -/
theorem C10_scope_checked_before_user (env : Env) (db : DB) (s : String) (T : Token)
    (uid : Nat) (r : String)
    (henc : env.verify_token s = none)
    (hmatch : token_crud.verify_token env db s = some T)
    (huid : T.user_id = some uid) (hpos : uid ≠ 0)
    (hnouser : get_user db uid = none) :
    (T.scopes.contains r = false →
      get_current_api_user_with_scope r env db s = Except.error (scope_exception r))
    ∧ (T.scopes.contains r = true →
      get_current_api_user_with_scope r env db s = Except.error credentials_exception) := by
  constructor
  · intro hout
    have hout2 : r ∉ T.scopes := by simpa using hout
    simp [get_current_api_user_with_scope, user_token_path, henc,
      scoped_api_token_branch, hmatch, hout2]
  · intro hin
    have hin2 : r ∈ T.scopes := by simpa using hin
    simp [get_current_api_user_with_scope, user_token_path, henc,
      scoped_api_token_branch, hmatch, hin2, truthy, huid, hpos, hnouser]

/-- C10 witness: the dangling fixture token gets the 403 for a missing
scope and the 401 for a granted scope whose user row is absent. -/
theorem C10_witness :
    get_current_api_user_with_scope "status:read" envFix dbDangling "dangsec"
        = Except.error (scope_exception "status:read")
    ∧ get_current_api_user_with_scope "health:read" envFix dbDangling "dangsec"
        = Except.error credentials_exception := by
  have h1 := C10_scope_checked_before_user envFix dbDangling "dangsec" tokDangling 9
    "status:read" rfl rfl rfl (by decide) rfl
  have h2 := C10_scope_checked_before_user envFix dbDangling "dangsec" tokDangling 9
    "health:read" rfl rfl rfl (by decide) rfl
  exact ⟨h1.1 rfl, h2.2 rfl⟩
